import Mathlib

/-!
Verification of the CareCompass patient-care backend (src/server.js and
src/migrate-patient-assignments.js) against its natural-language
specification.  The Express handlers are shallowly embedded as pure Lean
functions over explicit list-based stores; MongoDB/Mongoose collections
become lists of records, `findOne` becomes `List.find?` (first match),
`deleteOne` becomes `List.eraseP` (removes the first match), `deleteMany`
becomes `List.filter` with the negated predicate, and `create` appends.
Epoch-millisecond timestamps are `Int`.  The Mongoose model files
(models/*.js) are not part of the sources; where their behaviour matters
the spec is followed: the schemas are open and store inserted documents
verbatim (spec section 3, "schema is intentionally open/extensible",
"no schema validation on log content").
-/

namespace CareCompass

/-- Dynamic JavaScript values as they appear in the JSON documents handled
by the server: strings and (integral) numbers suffice for the fields the
claims touch. -/
inductive JsVal where
  | str (s : String)
  | num (n : Int)
deriving DecidableEq

/-- A JavaScript object, as an association list from keys to values;
lookup returns the first binding, matching JS property access on the
objects built here. -/
abbrev JsObj := List (String × JsVal)

/-- Property read `o[k]` on an embedded JS object. -/
def objGet (o : JsObj) (k : String) : Option JsVal :=
  (List.find? (fun kv => kv.1 == k) o).map (fun kv => kv.2)

/-- Whether the object has a binding for key `k`. -/
def hasKey (o : JsObj) (k : String) : Bool :=
  List.any o (fun kv => kv.1 == k)

/-- Embedding of the JS object-literal spread `{ ...base, ...payload }`
where `payload` comes last: any key present in `payload` overrides the
binding in `base`.  The embedding keeps the surviving `base` bindings
followed by all `payload` bindings; `objGet` on the result agrees with JS
property access on the literal. -/
def jsSpread (base payload : JsObj) : JsObj :=
  List.append (List.filter (fun kv => !(hasKey payload kv.1)) base) payload

/-- User snapshot as stored on sessions and attached to requests
(src/server.js lines 161-170). -/
structure User where
  id : String
  name : String
  email : String
  role : String
deriving DecidableEq

/-- Session row: token, denormalized user snapshot, absolute expiry in
epoch ms (src/server.js lines 161-170). -/
structure Session where
  token : String
  user : User
  expiresAt : Int
deriving DecidableEq

/-- Patient document.  The schema is open (spec section 3); the fields the
server reads are embedded: `id`, the legacy single-doctor field
`assignedDoctorId`, the assignment list `assignedDoctorIds` (where `none`
stands for both a null field and an absent field, which the Mongo queries
in the source treat alike), plus `name` and `diagnosis` used by the
analysis endpoint. -/
structure Patient where
  id : String
  assignedDoctorId : Option String
  assignedDoctorIds : Option (List String)
  name : Option String
  diagnosis : Option String
deriving DecidableEq

/-- Result of the authentication middleware. -/
inductive AuthResult where
  | ok (user : User)
  | unauthorized
deriving DecidableEq

/-- Embedding of `requireAuth` (src/server.js lines 49-65): resolve the
bearer token against the session store; reject a missing token, an
unknown token, or a session with `expiresAt < Date.now()`. -/
def requireAuth (tok : Option String) (sessions : List Session) (now : Int) :
    AuthResult :=
  match tok with
  | none => AuthResult.unauthorized
  | some t =>
    match List.find? (fun s => s.token == t) sessions with
    | none => AuthResult.unauthorized
    | some s =>
      if s.expiresAt < now then AuthResult.unauthorized
      else AuthResult.ok s.user

/-- The doctor branch of the `GET /api/patients` Mongo query
(src/server.js lines 217-225): an `$or` of the legacy field equalling the
email, the assignment array containing the email, the array being empty,
the field being null, and the field being absent (the last two are both
`none` here). -/
def doctorVisibleQuery (e : String) (p : Patient) : Bool :=
  (p.assignedDoctorId == some e) ||
  (match p.assignedDoctorIds with
   | some ds => ds.contains e || ds.isEmpty
   | none => true)

/-- Embedding of the `GET /api/patients` handler body (src/server.js
lines 207-234): caregivers see every patient, doctors see the
`doctorVisibleQuery` matches, any other role sees nothing. -/
def listPatients (u : User) (patients : List Patient) : List Patient :=
  if u.role == "caregiver" then patients
  else if u.role == "doctor" then
    List.filter (doctorVisibleQuery u.email) patients
  else []

/-- Visibility predicate written from the words of the spec invariant
(section 3): a patient is visible to a doctor with email `e` iff `e` is in
`assignedDoctorIds`, or that list is empty, null or absent.  Used to
compare the spec claim with the query the code runs. -/
def specVisible (e : String) (p : Patient) : Bool :=
  match p.assignedDoctorIds with
  | some ds => ds.contains e || ds.isEmpty
  | none => true

/-- Visibility predicate of the amended claim: as `specVisible`, with the
extra disjunct for the legacy single-doctor field `assignedDoctorId`
equalling the email. -/
def specVisibleAmended (e : String) (p : Patient) : Bool :=
  specVisible e p || (p.assignedDoctorId == some e)

/-- Patient payload of `POST /api/patients`: the same open document, with
`id` optional because the handler validates its presence.  A JS-falsy id
is either an absent key (`none`) or the empty string. -/
structure PatientPayload where
  id : Option String
  assignedDoctorId : Option String
  assignedDoctorIds : Option (List String)
  name : Option String
  diagnosis : Option String
deriving DecidableEq

/-- Outcome of `POST /api/patients`. -/
inductive CreatePatientResult where
  | validationError
  | conflict
  | created (p : Patient)
deriving DecidableEq

/-- Embedding of the `POST /api/patients` handler (src/server.js lines
236-257): a JS-falsy `id` (absent or empty string) is a 400, an existing
patient with the same id is a 409, and a doctor creator has the payload
field `assignedDoctorIds` overwritten with the one-element list of the
creating doctor email before insertion. -/
def createPatient (u : User) (p : PatientPayload) (patients : List Patient) :
    CreatePatientResult × List Patient :=
  match p.id with
  | none => (CreatePatientResult.validationError, patients)
  | some pid =>
    if pid == "" then (CreatePatientResult.validationError, patients)
    else
      match List.find? (fun q => q.id == pid) patients with
      | some _ => (CreatePatientResult.conflict, patients)
      | none =>
        let ids := if u.role == "doctor" then some [u.email]
                   else p.assignedDoctorIds
        let stored : Patient :=
          { id := pid, assignedDoctorId := p.assignedDoctorId,
            assignedDoctorIds := ids, name := p.name,
            diagnosis := p.diagnosis }
        (CreatePatientResult.created stored,
         List.append patients [stored])

/-- Outcome of `POST /api/patients/:id/assign`. -/
inductive AssignResult where
  | forbidden
  | validationError
  | notFound
  | ok
deriving DecidableEq

/-- Express route parameters as an association list; the route pattern
`/api/patients/:id/assign` binds exactly the key "id". -/
def lookupParam (params : List (String × String)) (k : String) :
    Option String :=
  (List.find? (fun kv => kv.1 == k) params).map (fun kv => kv.2)

/-- Mongoose `findOne({ id: v })` where `v` may be the JS value
`undefined`: Mongoose strips query keys whose value is undefined, so the
filter collapses to `{}` and the first document of the collection is
returned; with a defined value it is a first-match lookup on `id`. -/
def mongooseFindOneById (v : Option String) (patients : List Patient) :
    Option Patient :=
  match v with
  | none => patients.head?
  | some pid => List.find? (fun p => p.id == pid) patients

/-- Embedding of the `POST /api/patients/:id/assign` handler body
(src/server.js lines 260-286).  Note the handler reads
`req.params.patientId` even though the route binds the parameter under
the key "id"; the read is kept verbatim as a `lookupParam` for
"patientId".  `doctorEmails` is `none` when the request body carries no
array.  A successful assignment saves the loaded document with its
`assignedDoctorIds` replaced wholesale. -/
def assignHandler (u : User) (params : List (String × String))
    (doctorEmails : Option (List String)) (patients : List Patient) :
    AssignResult × List Patient :=
  if u.role != "caregiver" then (AssignResult.forbidden, patients)
  else
    match doctorEmails with
    | none => (AssignResult.validationError, patients)
    | some emails =>
      if emails.isEmpty then (AssignResult.validationError, patients)
      else
        let patientId := lookupParam params "patientId"
        match mongooseFindOneById patientId patients with
        | none => (AssignResult.notFound, patients)
        | some p =>
          let p2 : Patient := { p with assignedDoctorIds := some emails }
          (AssignResult.ok,
           List.map (fun q => if q.id == p.id then p2 else q) patients)

/-- The assign endpoint as routed: the URL segment is bound to the route
parameter "id" (route pattern `/api/patients/:id/assign`). -/
def assignEndpoint (u : User) (idParam : String)
    (doctorEmails : Option (List String)) (patients : List Patient) :
    AssignResult × List Patient :=
  assignHandler u [("id", idParam)] doctorEmails patients

/-- Clinician note row (src/server.js lines 396-408). -/
structure ClinicianNote where
  patientId : String
  note : String
  createdAt : Int
deriving DecidableEq

/-- Share link row (src/server.js lines 345-367).  The code is kept as a
list of characters to mirror the character-level slicing that produces
it. -/
structure ShareLink where
  patientId : String
  code : List Char
  url : String
  expiresAt : Int
deriving DecidableEq

/-- All persistent stores touched by patient deletion. -/
structure Stores where
  patients : List Patient
  logs : List JsObj
  notes : List ClinicianNote
  shareLinks : List ShareLink
deriving DecidableEq

/-- Embedding of `POST /api/logs/:patientId` (src/server.js lines
329-342): the inserted document is the object literal
`{ patientId, createdAt: Date.now(), ...payload }`, so the payload is
spread last and its bindings override the two server-supplied fields.
The log store keeps inserted documents verbatim (spec: no schema
validation on log content; models/Log.js is not among the sources). -/
def newLogDoc (pid : String) (now : Int) (payload : JsObj) : JsObj :=
  jsSpread [("patientId", JsVal.str pid), ("createdAt", JsVal.num now)]
    payload

/-- Insertion into the log store performed by the handler. -/
def createLog (pid : String) (now : Int) (payload : JsObj)
    (logs : List JsObj) : List JsObj :=
  List.append logs [newLogDoc pid now payload]

/-- Embedding of `DELETE /api/patients/:id` (src/server.js lines
303-315): `deleteOne` on patients, `deleteMany` on logs and notes,
`deleteOne` on share links; the response is `{ ok: true }`
unconditionally, whether or not anything matched. -/
def deletePatient (id : String) (s : Stores) : AssignResult × Stores :=
  (AssignResult.ok,
   { patients := List.eraseP (fun p => p.id == id) s.patients,
     logs := List.filter
       (fun l => !(objGet l "patientId" == some (JsVal.str id))) s.logs,
     notes := List.filter (fun n => !(n.patientId == id)) s.notes,
     shareLinks := List.eraseP (fun l => l.patientId == id) s.shareLinks })

/-- Base-36 digit as JavaScript prints it: 0-9 then lowercase a-z. -/
def digitChar36 (d : Nat) : Char :=
  if d < 10 then Char.ofNat (48 + d) else Char.ofNat (87 + d)

/-- Characters a JavaScript `Math.random().toString(36)` call can
produce.  `Math.random()` returns a double in [0, 1); its base-36 string
is `"0"` for the value 0, and otherwise `"0."` followed by a non-empty
run of base-36 digits — the shortest run that identifies the double, so
it may be short (the reachable value 0.5 prints as `"0.i"`). -/
def isRandom36Repr (s : List Char) : Prop :=
  s = ['0'] ∨
  ∃ ds : List Nat, ds ≠ [] ∧ (∀ d ∈ ds, d < 36) ∧
    s = '0' :: '.' :: List.map digitChar36 ds

/-- The share-code computation of src/server.js line 348 applied to the
base-36 string: `.slice(2, 8).toUpperCase()`. -/
def jsCode (s : List Char) : List Char :=
  List.map Char.toUpper (List.take 6 (List.drop 2 s))

/-- Uppercase-alphanumeric test used to state the code character-set
property. -/
def isUpperAlnum (c : Char) : Bool :=
  (48 ≤ c.toNat && c.toNat ≤ 57) || (65 ≤ c.toNat && c.toNat ≤ 90)

/-- The share link document built by `POST /api/share/:patientId`
(src/server.js lines 347-360): code from the random base-36 string,
URL on the default port 3000, expiry now + 24h. -/
def newShareLink (pid : String) (now : Int) (rnd : List Char) :
    ShareLink :=
  { patientId := pid, code := jsCode rnd,
    url := String.append "http://localhost:3000/share/"
      (String.mk (jsCode rnd)),
    expiresAt := now + 24 * 60 * 60 * 1000 }

/-- Embedding of `POST /api/share/:patientId` (src/server.js lines
345-367): delete any existing link for the patient (`deleteOne`), insert
the new link, and return it. -/
def createShareLink (pid : String) (now : Int) (rnd : List Char)
    (links : List ShareLink) : ShareLink × List ShareLink :=
  (newShareLink pid now rnd,
   List.append (List.eraseP (fun l => l.patientId == pid) links)
     [newShareLink pid now rnd])

/-- Formatted log entry as built by the analysis handler (src/server.js
lines 443-455) before it reaches `generateBasicAnalysis`; only the fields
that the heuristic reads are kept. -/
structure FmtLog where
  mood : String
  food : String
  medication : String
  hydration : String
deriving DecidableEq

/-- Does `pat` occur at the head of `s`? -/
def matchAt : List Char → List Char → Bool
  | [], _ => true
  | _ :: _, [] => false
  | a :: as, b :: bs => a == b && matchAt as bs

/-- Does `pat` occur anywhere in `s`?  Embeds JS `String.includes`. -/
def occursIn (pat : List Char) : List Char → Bool
  | [] => matchAt pat []
  | c :: rest => matchAt pat (c :: rest) || occursIn pat rest

/-- JS `s.includes(pat)` on embedded strings. -/
def jsIncludes (s pat : String) : Bool :=
  occursIn pat.data s.data

/-- Embedding of `((c / n) * 100).toFixed(0)` compared as a number
(src/server.js lines 558-560 and 573-576): the percentage rounded to the
nearest integer, halves up.  JavaScript computes the ratio in binary
floating point and `toFixed` rounds half away from zero; on the exact
rational this is round-half-up for the nonnegative values that occur
here, and away from representation ties the two agree. -/
def jsPercent (c n : Nat) : Nat :=
  (200 * c + n) / (2 * n)

/-- Count of logs with a full food intake (src/server.js line 553). -/
def foodCompliance (logs : List FmtLog) : Nat :=
  (List.filter (fun l => l.food == "full") logs).length

/-- Count of logs with medication given (src/server.js line 554). -/
def medCompliance (logs : List FmtLog) : Nat :=
  (List.filter (fun l => l.medication == "given") logs).length

/-- Count of logs whose hydration indicates intake (src/server.js line
555): a truthy hydration string that contains "drank" or equals
"full". -/
def hydrationCompliance (logs : List FmtLog) : Nat :=
  (List.filter
    (fun l => l.hydration != "" &&
      (jsIncludes l.hydration "drank" || l.hydration == "full"))
    logs).length

/-- The recommendation sentences appended by `generateBasicAnalysis`
(src/server.js lines 572-578), in order: each flag sentence is appended
when its rounded percentage is below its threshold, and the closing
sentence when all three thresholds are met.  The string-to-number
comparisons in the source coerce the `toFixed(0)` string back to its
numeric value. -/
def recommendationParts (logs : List FmtLog) : List String :=
  let n := logs.length
  let foodPercent := jsPercent (foodCompliance logs) n
  let medPercent := jsPercent (medCompliance logs) n
  let hydrationPercent := jsPercent (hydrationCompliance logs) n
  List.append
    (if foodPercent < 70 then ["Monitor food intake closely. "] else [])
    (List.append
      (if medPercent < 90 then
        ["Review medication schedule adherence. "] else [])
      (List.append
        (if hydrationPercent < 60 then
          ["Encourage increased hydration. "] else [])
        (if 70 ≤ foodPercent && 90 ≤ medPercent && 60 ≤ hydrationPercent
         then ["Overall compliance is good. Continue current care plan."]
         else [])))

/-- Response shape of `GET /api/analysis/:patientId` as far as the claims
observe it: HTTP status, the `hasData` field when present, and whether
the external text-generation call is attempted. -/
structure AnalysisOutcome where
  status : Nat
  hasData : Option Bool
  externalAttempted : Bool
deriving DecidableEq

/-- Mongo condition `createdAt: { $gte: t }` on a log document: matches
only documents whose `createdAt` is a number at least `t`. -/
def createdAtGeq (l : JsObj) (t : Int) : Bool :=
  match objGet l "createdAt" with
  | some (JsVal.num n) => t ≤ n
  | _ => false

/-- The logs selected by the analysis endpoint (src/server.js lines
424-428): same patient and `createdAt` within the trailing seven 24-hour
days.  The ascending sort of the source only reorders the selection and
is omitted; no claim observes the order. -/
def recentLogs (logs : List JsObj) (pid : String) (now : Int) :
    List JsObj :=
  List.filter
    (fun l => (objGet l "patientId" == some (JsVal.str pid)) &&
      createdAtGeq l (now - 7 * 24 * 60 * 60 * 1000)) logs

/-- Embedding of the `GET /api/analysis/:patientId` handler control flow
(src/server.js lines 411-535): 404 for an unknown patient; the fixed
no-data response with `hasData: false` when no log falls in the window;
otherwise a 200 with `hasData: true`, reaching the external call exactly
when the OpenAI client and key are configured. -/
def generateAnalysis (patients : List Patient) (logs : List JsObj)
    (pid : String) (now : Int) (aiConfigured : Bool) : AnalysisOutcome :=
  match List.find? (fun q => q.id == pid) patients with
  | none => { status := 404, hasData := none, externalAttempted := false }
  | some _ =>
    if (recentLogs logs pid now).isEmpty then
      { status := 200, hasData := some false, externalAttempted := false }
    else if aiConfigured then
      { status := 200, hasData := some true, externalAttempted := true }
    else
      { status := 200, hasData := some true, externalAttempted := false }

/-! Helper lemmas shared by the claim theorems. -/

/-- In a list holding at most one match of `p`, nothing matching `p`
survives `eraseP p`. -/
theorem countP_le_one_mem_eraseP {α : Type} (p : α → Bool) (l : List α)
    (h : List.countP p l ≤ 1) : ∀ a ∈ List.eraseP p l, p a = false := by
  induction l with
  | nil => intro a ha; simp at ha
  | cons b t ih =>
    intro a ha
    by_cases hb : p b = true
    · rw [List.eraseP_cons_of_pos hb] at ha
      have h0 : List.countP p t = 0 := by
        simp only [List.countP_cons, hb, if_true] at h
        omega
      simpa using List.countP_eq_zero.mp h0 a ha
    · rw [List.eraseP_cons_of_neg hb] at ha
      have hb2 : p b = false := by simpa using hb
      rcases List.mem_cons.mp ha with rfl | hmem
      · exact hb2
      · refine ih ?_ a hmem
        simp only [List.countP_cons, hb2, if_false] at h
        omega
/-- With at most one match present, removing the first match twice is
the same as removing it once. -/
theorem eraseP_idem_of_countP_le_one {α : Type} (p : α → Bool)
    (l : List α) (h : List.countP p l ≤ 1) :
    List.eraseP p (List.eraseP p l) = List.eraseP p l :=
  List.eraseP_of_forall_not
    (fun a ha => by simp [countP_le_one_mem_eraseP p l h a ha])

/-- Filtering is idempotent. -/
theorem filter_idem {α : Type} (p : α → Bool) (l : List α) :
    List.filter p (List.filter p l) = List.filter p l := by
  rw [List.filter_filter]
  simp

/-- Membership in the conditional singleton lists that make up the
recommendation text. -/
theorem mem_ite_singleton {α : Type} {x s : α} {c : Prop} [Decidable c] :
    (x ∈ (if c then [s] else ([] : List α))) ↔ (c ∧ x = s) := by
  by_cases h : c <;> simp [h]

/-! Claim C1: doctor-side patient visibility. -/

/-- C1 counterexample: a patient whose `assignedDoctorIds` is the
non-empty list ["other@x"] not containing the requesting doctor, but
whose legacy `assignedDoctorId` equals the doctor, is returned by
`listPatients` — the claim says such a patient is never included
(`specVisible` is exactly the visibility predicate stated by the
claim, and it rejects this patient). -/
theorem listPatients_legacy_counterexample :
    listPatients ⟨"u1", "Doc", "dr@x", "doctor"⟩
        [⟨"p1", some "dr@x", some ["other@x"], none, none⟩] =
      [⟨"p1", some "dr@x", some ["other@x"], none, none⟩] ∧
    specVisible "dr@x" ⟨"p1", some "dr@x", some ["other@x"], none, none⟩
      = false := by
  constructor
  · decide
  · decide

/-- C1 (amended): for a doctor with email `e`, `listPatients` returns
exactly the stored patients satisfying the claim predicate extended with
the legacy single-doctor disjunct: `e` is in `assignedDoctorIds`, or that
list is empty, null or absent, or the legacy `assignedDoctorId` equals
`e`. -/
theorem listPatients_doctor_eq_filter_spec (uid uname e : String)
    (patients : List Patient) :
    listPatients ⟨uid, uname, e, "doctor"⟩ patients =
      List.filter (specVisibleAmended e) patients := by
  have h1 : (("doctor" : String) == "caregiver") = false := by decide
  have h2 : (("doctor" : String) == "doctor") = true := by decide
  unfold listPatients
  simp only [h1, h2, Bool.false_eq_true, if_false, if_true]
  apply List.filter_congr
  intro p _
  unfold doctorVisibleQuery specVisibleAmended specVisible
  cases p.assignedDoctorIds <;> simp [Bool.or_comm]

/-! Claim C4: session expiry boundary in `requireAuth`. -/

/-- C4 counterexample: a session whose row is present with
`expiresAt = now` (so `expiresAt ≤ now`) is accepted by `requireAuth`,
while the claim requires a failure. -/
theorem requireAuth_boundary_counterexample :
    requireAuth (some "tok")
        [⟨"tok", ⟨"u1", "N", "n@x", "doctor"⟩, 100⟩] 100 =
      AuthResult.ok ⟨"u1", "N", "n@x", "doctor"⟩ ∧
    (100 : Int) ≤ 100 := by
  constructor
  · decide
  · decide

/-- C4 (amended): when the token resolves to a stored session,
`requireAuth` rejects exactly when `expiresAt < now` (strictly), and
accepts with the session user exactly when `now ≤ expiresAt`; a session
with `expiresAt = now` is still accepted. -/
theorem requireAuth_valid_iff (sessions : List Session) (t : String)
    (now : Int) (s : Session)
    (hfind : List.find? (fun x => x.token == t) sessions = some s) :
    (requireAuth (some t) sessions now = AuthResult.unauthorized ↔
      s.expiresAt < now) ∧
    (requireAuth (some t) sessions now = AuthResult.ok s.user ↔
      now ≤ s.expiresAt) := by
  unfold requireAuth
  simp only [hfind]
  by_cases h : s.expiresAt < now
  · rw [if_pos h]
    refine ⟨⟨fun _ => h, fun _ => rfl⟩, ⟨fun hok => ?_, fun hle => ?_⟩⟩
    · cases hok
    · omega
  · rw [if_neg h]
    refine ⟨⟨fun hok => ?_, fun hlt => ?_⟩, ⟨fun _ => ?_, fun _ => rfl⟩⟩
    · cases hok
    · omega
    · omega

/-- Witness for `requireAuth_valid_iff` at a concrete store: the single
session row with token "tok" expiring at 100, queried at time 100. -/
theorem requireAuth_valid_iff_witness :
    (requireAuth (some "tok")
        [⟨"tok", ⟨"u1", "N", "n@x", "doctor"⟩, 100⟩] 100 =
          AuthResult.unauthorized ↔ (100 : Int) < 100) ∧
    (requireAuth (some "tok")
        [⟨"tok", ⟨"u1", "N", "n@x", "doctor"⟩, 100⟩] 100 =
          AuthResult.ok ⟨"u1", "N", "n@x", "doctor"⟩ ↔
      (100 : Int) ≤ 100) :=
  requireAuth_valid_iff
    [⟨"tok", ⟨"u1", "N", "n@x", "doctor"⟩, 100⟩] "tok" 100
    ⟨"tok", ⟨"u1", "N", "n@x", "doctor"⟩, 100⟩ (by decide)

/-! Claim C2: log creation and the payload spread. -/

/-- C2 counterexample: a payload that itself carries a `patientId` key
overrides the path parameter, because the handler spreads the payload
after the server-supplied fields; the `patientId` of the stored document is
the payload value "X", not the path parameter "P1". -/
theorem createLog_payload_overrides_counterexample :
    createLog "P1" 1000 [("patientId", JsVal.str "X")] [] =
      [[("createdAt", JsVal.num 1000), ("patientId", JsVal.str "X")]] ∧
    objGet (newLogDoc "P1" 1000 [("patientId", JsVal.str "X")]) "patientId"
      = some (JsVal.str "X") ∧
    some (JsVal.str "X") ≠ some (JsVal.str "P1") := by
  refine ⟨?_, ?_, ?_⟩ <;> decide

/-- C2 (amended): every payload field is stored verbatim, and the stored log fields `patientId` and `createdAt` equal the path parameter and the server
clock whenever the payload does not itself bind those keys; a
payload-supplied binding for either key overrides the server value (JS
spread order). -/
theorem createLog_fields (pid : String) (now : Int) (payload : JsObj)
    (h1 : hasKey payload "patientId" = false)
    (h2 : hasKey payload "createdAt" = false) :
    objGet (newLogDoc pid now payload) "patientId"
      = some (JsVal.str pid) ∧
    objGet (newLogDoc pid now payload) "createdAt"
      = some (JsVal.num now) ∧
    List.all payload (fun kv =>
      objGet (newLogDoc pid now payload) kv.1 == objGet payload kv.1)
      = true := by
  have h1a : List.any payload (fun kv => kv.1 == "patientId") = false := h1
  have h2a : List.any payload (fun kv => kv.1 == "createdAt") = false := h2
  have hdoc : newLogDoc pid now payload =
      ("patientId", JsVal.str pid) :: ("createdAt", JsVal.num now) ::
        payload := by
    unfold newLogDoc jsSpread hasKey
    simp [List.filter_cons, h1a, h2a]
  refine ⟨?_, ?_, ?_⟩
  · rw [hdoc]
    simp only [objGet, List.find?, beq_self_eq_true]
    rfl
  · rw [hdoc]
    have h12 : (("patientId" : String) == "createdAt") = false := by decide
    simp only [objGet, List.find?, h12, beq_self_eq_true]
    rfl
  · rw [hdoc]
    rw [List.all_eq_true]
    intro kv hkv
    have hk1 : kv.1 ≠ "patientId" := fun he => by
      have := List.any_eq_false.mp h1a kv hkv
      simp [he] at this
    have hk2 : kv.1 ≠ "createdAt" := fun he => by
      have := List.any_eq_false.mp h2a kv hkv
      simp [he] at this
    have hpk : (("patientId" : String) == kv.1) = false :=
      beq_eq_false_iff_ne.mpr (Ne.symm hk1)
    have hck : (("createdAt" : String) == kv.1) = false :=
      beq_eq_false_iff_ne.mpr (Ne.symm hk2)
    have hobj : objGet (("patientId", JsVal.str pid) ::
        ("createdAt", JsVal.num now) :: payload) kv.1
        = objGet payload kv.1 := by
      simp only [objGet, List.find?, hpk, hck]
    rw [hobj]
    exact beq_self_eq_true _

/-- Witness for `createLog_fields`: payload with a single "mood" field,
which contains neither overriding key. -/
theorem createLog_fields_witness :
    hasKey [("mood", JsVal.str "happy")] "patientId" = false ∧
    hasKey [("mood", JsVal.str "happy")] "createdAt" = false ∧
    (objGet (newLogDoc "P1" 5 [("mood", JsVal.str "happy")]) "patientId"
        = some (JsVal.str "P1") ∧
     objGet (newLogDoc "P1" 5 [("mood", JsVal.str "happy")]) "createdAt"
        = some (JsVal.num 5) ∧
     List.all [("mood", JsVal.str "happy")] (fun kv =>
       objGet (newLogDoc "P1" 5 [("mood", JsVal.str "happy")]) kv.1 ==
         objGet [("mood", JsVal.str "happy")] kv.1) = true) :=
  ⟨by decide, by decide,
   createLog_fields "P1" 5 [("mood", JsVal.str "happy")]
     (by decide) (by decide)⟩

/-! Claim C3: the assignment endpoint and its route parameter. -/

/-- C3 failing input: patients "A" and "B" are stored, a caregiver calls
the assign endpoint for patient "B"; because the handler reads
`req.params.patientId` while the route binds the segment under "id", the
lookup filter collapses and the FIRST stored patient "A" receives the new
assignment while "B" is untouched — and for an unknown id "Z" the
endpoint still answers ok (updating "A") rather than NotFoundError. -/
theorem assignEndpoint_updates_wrong_patient :
    assignEndpoint ⟨"u2", "Care", "cg@x", "caregiver"⟩ "B" (some ["doc@x"])
        [⟨"A", none, none, none, none⟩, ⟨"B", none, none, none, none⟩] =
      (AssignResult.ok,
       [⟨"A", none, some ["doc@x"], none, none⟩,
        ⟨"B", none, none, none, none⟩]) ∧
    (assignEndpoint ⟨"u2", "Care", "cg@x", "caregiver"⟩ "Z"
        (some ["doc@x"]) [⟨"A", none, none, none, none⟩]).1 =
      AssignResult.ok := by
  refine ⟨?_, ?_⟩ <;> decide

/-! Claim C6: analysis with an empty trailing window, unknown patient. -/

/-- C6: for an existing patient with no log in the trailing seven-day
window the analysis endpoint returns the fixed no-data response
(`hasData = false`) without attempting the external call even when the
external credential is configured, and for an unknown patient id it
returns 404. -/
theorem generateAnalysis_noData_and_notFound (patients : List Patient)
    (logs : List JsObj) (pid pid2 : String) (now : Int) (ai : Bool)
    (p : Patient)
    (hp : List.find? (fun q => q.id == pid) patients = some p)
    (hl : recentLogs logs pid now = [])
    (hmiss : List.find? (fun q => q.id == pid2) patients = none) :
    generateAnalysis patients logs pid now ai =
      { status := 200, hasData := some false, externalAttempted := false } ∧
    generateAnalysis patients logs pid2 now ai =
      { status := 404, hasData := none, externalAttempted := false } := by
  constructor
  · unfold generateAnalysis
    simp only [hp, hl, List.isEmpty_nil, if_true]
  · unfold generateAnalysis
    simp only [hmiss]

/-- Witness for `generateAnalysis_noData_and_notFound`: one stored
patient "A" and one log for "A" timestamped just outside the trailing
window (now is one millisecond past seven days after the log). -/
theorem generateAnalysis_noData_witness :
    List.find? (fun q => q.id == "A")
        [(⟨"A", none, none, none, none⟩ : Patient)] =
      some (⟨"A", none, none, none, none⟩ : Patient) ∧
    recentLogs [[("patientId", JsVal.str "A"), ("createdAt", JsVal.num 0)]]
        "A" 604800001 = [] ∧
    List.find? (fun q => q.id == "Z")
        [(⟨"A", none, none, none, none⟩ : Patient)] = none ∧
    (generateAnalysis [⟨"A", none, none, none, none⟩]
        [[("patientId", JsVal.str "A"), ("createdAt", JsVal.num 0)]]
        "A" 604800001 true =
      { status := 200, hasData := some false,
        externalAttempted := false } ∧
     generateAnalysis [⟨"A", none, none, none, none⟩]
        [[("patientId", JsVal.str "A"), ("createdAt", JsVal.num 0)]]
        "Z" 604800001 true =
      { status := 404, hasData := none, externalAttempted := false }) :=
  ⟨by decide, by decide, by decide,
   generateAnalysis_noData_and_notFound _ _ "A" "Z" 604800001 true
     ⟨"A", none, none, none, none⟩ (by decide) (by decide) (by decide)⟩

/-! Claim C7: patient creation. -/

/-- C7: `createPatient` rejects a payload without an id with
ValidationError, rejects an id that already exists with ConflictError,
and on success by a doctor stores exactly the one-element assignment list
with the email of the creator, overriding any caller-supplied list. -/
theorem createPatient_validation_conflict_doctorAssign
    (u : User) (pl1 pl2 pl3 : PatientPayload) (st : List Patient)
    (pid2 pid3 : String) (q0 : Patient)
    (h1 : pl1.id = none)
    (h2 : pl2.id = some pid2) (h2ne : pid2 ≠ "")
    (h2ex : List.find? (fun q => q.id == pid2) st = some q0)
    (hrole : u.role = "doctor")
    (h3 : pl3.id = some pid3) (h3ne : pid3 ≠ "")
    (h3miss : List.find? (fun q => q.id == pid3) st = none) :
    createPatient u pl1 st = (CreatePatientResult.validationError, st) ∧
    createPatient u pl2 st = (CreatePatientResult.conflict, st) ∧
    createPatient u pl3 st =
      (CreatePatientResult.created
        { id := pid3, assignedDoctorId := pl3.assignedDoctorId,
          assignedDoctorIds := some [u.email], name := pl3.name,
          diagnosis := pl3.diagnosis },
       List.append st
         [{ id := pid3, assignedDoctorId := pl3.assignedDoctorId,
            assignedDoctorIds := some [u.email], name := pl3.name,
            diagnosis := pl3.diagnosis }]) := by
  refine ⟨?_, ?_, ?_⟩
  · unfold createPatient
    rw [h1]
  · unfold createPatient
    rw [h2]
    have hne : (pid2 == "") = false := beq_eq_false_iff_ne.mpr h2ne
    simp only [hne, Bool.false_eq_true, if_false, h2ex]
  · unfold createPatient
    rw [h3]
    have hne : (pid3 == "") = false := beq_eq_false_iff_ne.mpr h3ne
    simp only [hne, Bool.false_eq_true, if_false, h3miss, hrole,
      beq_self_eq_true, if_true]

/-- Witness for `createPatient_validation_conflict_doctorAssign`: a
doctor creator, a store holding patient "A", a payload without id, a
payload reusing id "A", and a payload with fresh id "B" that tries to
hand the patient to "hacker@x" but is stored assigned to the creating
doctor. -/
theorem createPatient_witness :
    (⟨none, none, none, none, none⟩ : PatientPayload).id = none ∧
    (⟨some "A", none, none, none, none⟩ : PatientPayload).id = some "A" ∧
    ("A" : String) ≠ "" ∧
    List.find? (fun q => q.id == "A")
        [(⟨"A", none, none, none, none⟩ : Patient)] =
      some (⟨"A", none, none, none, none⟩ : Patient) ∧
    (⟨"d1", "Doc", "dr@x", "doctor"⟩ : User).role = "doctor" ∧
    (⟨some "B", none, some ["hacker@x"], none, none⟩ :
        PatientPayload).id = some "B" ∧
    ("B" : String) ≠ "" ∧
    List.find? (fun q => q.id == "B")
        [(⟨"A", none, none, none, none⟩ : Patient)] = none ∧
    (createPatient ⟨"d1", "Doc", "dr@x", "doctor"⟩
        ⟨none, none, none, none, none⟩ [⟨"A", none, none, none, none⟩] =
      (CreatePatientResult.validationError,
       [⟨"A", none, none, none, none⟩]) ∧
     createPatient ⟨"d1", "Doc", "dr@x", "doctor"⟩
        ⟨some "A", none, none, none, none⟩
        [⟨"A", none, none, none, none⟩] =
      (CreatePatientResult.conflict, [⟨"A", none, none, none, none⟩]) ∧
     createPatient ⟨"d1", "Doc", "dr@x", "doctor"⟩
        ⟨some "B", none, some ["hacker@x"], none, none⟩
        [⟨"A", none, none, none, none⟩] =
      (CreatePatientResult.created
        { id := "B", assignedDoctorId := none,
          assignedDoctorIds := some ["dr@x"], name := none,
          diagnosis := none },
       List.append [⟨"A", none, none, none, none⟩]
         [{ id := "B", assignedDoctorId := none,
            assignedDoctorIds := some ["dr@x"], name := none,
            diagnosis := none }])) :=
  ⟨rfl, rfl, by decide, by decide, rfl, rfl, by decide, by decide,
   createPatient_validation_conflict_doctorAssign
     ⟨"d1", "Doc", "dr@x", "doctor"⟩ ⟨none, none, none, none, none⟩
     ⟨some "A", none, none, none, none⟩
     ⟨some "B", none, some ["hacker@x"], none, none⟩
     [⟨"A", none, none, none, none⟩] "A" "B"
     ⟨"A", none, none, none, none⟩ rfl rfl (by decide) (by decide) rfl
     rfl (by decide) (by decide)⟩

/-! Claim C5: heuristic analysis thresholds. -/

/-- Log list for the C5 counterexample: food is "full" in 16 of 23 logs,
an exact percentage of 69.57, below the 70 threshold. -/
def boundaryLogs : List FmtLog :=
  List.append (List.replicate 16 ⟨"ok", "full", "given", "full"⟩)
    (List.replicate 7 ⟨"ok", "none", "given", "full"⟩)

/-- C5 counterexample: with food "full" in 16 of 23 logs the percentage
of such logs is below 70 (1600 < 1610), yet the food-monitoring flag is
absent from the recommendation text, because the source compares the
`toFixed(0)`-rounded percentage — here 70 — with the threshold. -/
theorem recommendationParts_boundary_counterexample :
    100 * foodCompliance boundaryLogs < 70 * boundaryLogs.length ∧
    ¬ ("Monitor food intake closely. " ∈
        recommendationParts boundaryLogs) := by
  refine ⟨?_, ?_⟩ <;> decide

/-- Membership characterization of the recommendation sentence list. -/
theorem mem_recommendationParts (logs : List FmtLog) (x : String) :
    x ∈ recommendationParts logs ↔
      ((jsPercent (foodCompliance logs) logs.length < 70 ∧
        x = "Monitor food intake closely. ") ∨
       (jsPercent (medCompliance logs) logs.length < 90 ∧
        x = "Review medication schedule adherence. ") ∨
       (jsPercent (hydrationCompliance logs) logs.length < 60 ∧
        x = "Encourage increased hydration. ") ∨
       ((70 ≤ jsPercent (foodCompliance logs) logs.length ∧
         90 ≤ jsPercent (medCompliance logs) logs.length ∧
         60 ≤ jsPercent (hydrationCompliance logs) logs.length) ∧
        x = "Overall compliance is good. Continue current care plan."))
    := by
  simp only [recommendationParts, List.append_eq, List.mem_append,
    mem_ite_singleton, Bool.and_eq_true, decide_eq_true_eq,
    List.not_mem_nil]
  tauto

/-- C5 (amended): for every non-empty list of selected logs, each flag
sentence appears in the recommendation text iff the corresponding
`toFixed(0)`-rounded percentage is below its threshold (food 70,
medication 90, hydration 60), and the single continue-current-plan
sentence appears iff all three rounded percentages meet their
thresholds. -/
theorem recommendationParts_thresholds (logs : List FmtLog)
    (h : logs ≠ []) :
    (("Monitor food intake closely. " ∈ recommendationParts logs) ↔
      jsPercent (foodCompliance logs) logs.length < 70) ∧
    (("Review medication schedule adherence. " ∈
        recommendationParts logs) ↔
      jsPercent (medCompliance logs) logs.length < 90) ∧
    (("Encourage increased hydration. " ∈ recommendationParts logs) ↔
      jsPercent (hydrationCompliance logs) logs.length < 60) ∧
    (("Overall compliance is good. Continue current care plan." ∈
        recommendationParts logs) ↔
      (70 ≤ jsPercent (foodCompliance logs) logs.length ∧
       90 ≤ jsPercent (medCompliance logs) logs.length ∧
       60 ≤ jsPercent (hydrationCompliance logs) logs.length)) := by
  refine ⟨?_, ?_, ?_, ?_⟩
  · rw [mem_recommendationParts]
    constructor
    · rintro (⟨hc, _⟩ | ⟨_, he⟩ | ⟨_, he⟩ | ⟨_, he⟩)
      · exact hc
      · exact absurd he (by decide)
      · exact absurd he (by decide)
      · exact absurd he (by decide)
    · intro hc
      exact Or.inl ⟨hc, rfl⟩
  · rw [mem_recommendationParts]
    constructor
    · rintro (⟨_, he⟩ | ⟨hc, _⟩ | ⟨_, he⟩ | ⟨_, he⟩)
      · exact absurd he (by decide)
      · exact hc
      · exact absurd he (by decide)
      · exact absurd he (by decide)
    · intro hc
      exact Or.inr (Or.inl ⟨hc, rfl⟩)
  · rw [mem_recommendationParts]
    constructor
    · rintro (⟨_, he⟩ | ⟨_, he⟩ | ⟨hc, _⟩ | ⟨_, he⟩)
      · exact absurd he (by decide)
      · exact absurd he (by decide)
      · exact hc
      · exact absurd he (by decide)
    · intro hc
      exact Or.inr (Or.inr (Or.inl ⟨hc, rfl⟩))
  · rw [mem_recommendationParts]
    constructor
    · rintro (⟨_, he⟩ | ⟨_, he⟩ | ⟨_, he⟩ | ⟨hc, _⟩)
      · exact absurd he (by decide)
      · exact absurd he (by decide)
      · exact absurd he (by decide)
      · exact hc
    · intro hc
      exact Or.inr (Or.inr (Or.inr ⟨hc, rfl⟩))

/-- Log list realizing the spec example for C5: food "full" in 3 of 5
logs (60 percent). -/
def fiveLogs : List FmtLog :=
  List.append (List.replicate 3 ⟨"ok", "full", "given", "full"⟩)
    (List.replicate 2 ⟨"ok", "none", "given", "full"⟩)

/-- Witness for `recommendationParts_thresholds` on the 3-of-5 example
logs: the food flag is governed by the rounded percentage 60. -/
theorem recommendationParts_thresholds_witness :
    fiveLogs ≠ [] ∧
    ((("Monitor food intake closely. " ∈ recommendationParts fiveLogs) ↔
       jsPercent (foodCompliance fiveLogs) fiveLogs.length < 70) ∧
     (("Review medication schedule adherence. " ∈
         recommendationParts fiveLogs) ↔
       jsPercent (medCompliance fiveLogs) fiveLogs.length < 90) ∧
     (("Encourage increased hydration. " ∈
         recommendationParts fiveLogs) ↔
       jsPercent (hydrationCompliance fiveLogs) fiveLogs.length < 60) ∧
     (("Overall compliance is good. Continue current care plan." ∈
         recommendationParts fiveLogs) ↔
       (70 ≤ jsPercent (foodCompliance fiveLogs) fiveLogs.length ∧
        90 ≤ jsPercent (medCompliance fiveLogs) fiveLogs.length ∧
        60 ≤ jsPercent (hydrationCompliance fiveLogs) fiveLogs.length)))
    :=
  ⟨by decide, recommendationParts_thresholds fiveLogs (by decide)⟩

/-! Claim C8: share-link exclusivity per patient. -/

/-- Creating a share link preserves the at-most-one-link-per-patient
invariant of the share-link store. -/
theorem createShareLink_preserves_unique (pid : String) (now : Int)
    (r : List Char) (links : List ShareLink)
    (h : ∀ q2 : String,
      List.countP (fun l => l.patientId == q2) links ≤ 1)
    (q : String) :
    List.countP (fun l => l.patientId == q)
      (createShareLink pid now r links).2 ≤ 1 := by
  unfold createShareLink newShareLink
  simp only [List.append_eq, List.countP_append]
  by_cases hq : q = pid
  · subst hq
    have h0 : List.countP (fun l => l.patientId == q)
        (List.eraseP (fun l => l.patientId == q) links) = 0 := by
      rw [List.countP_eq_zero]
      intro a ha
      simp [countP_le_one_mem_eraseP _ links (h q) a ha]
    rw [h0]
    simp [List.countP_cons]
  · have hpq : ((pid : String) == q) = false :=
      beq_eq_false_iff_ne.mpr (fun he => hq he.symm)
    have h1 : List.countP (fun l => l.patientId == q)
        (List.eraseP (fun l => l.patientId == pid) links) ≤ 1 :=
      le_trans (List.Sublist.countP_le _ (List.eraseP_sublist links))
        (h q)
    simp only [List.countP_cons, List.countP_nil, hpq, if_false,
      Nat.add_zero, Nat.zero_add]
    exact h1

/-- C8: under the at-most-one-link-per-patient invariant, creating a
share link preserves the invariant; creating twice for the same patient
leaves exactly the second link retrievable for that patient, and the
second link carries the code of the second call and a 24-hour expiry
from the clock of the second call. -/
theorem createShareLink_exclusive (pid : String) (now1 now2 : Int)
    (r1 r2 : List Char) (links : List ShareLink) (q : String)
    (h : ∀ q2 : String,
      List.countP (fun l => l.patientId == q2) links ≤ 1) :
    List.countP (fun l => l.patientId == q)
        (createShareLink pid now1 r1 links).2 ≤ 1 ∧
    List.countP (fun l => l.patientId == q)
        (createShareLink pid now2 r2
          (createShareLink pid now1 r1 links).2).2 ≤ 1 ∧
    List.filter (fun l => l.patientId == pid)
        (createShareLink pid now2 r2
          (createShareLink pid now1 r1 links).2).2 =
      [(createShareLink pid now2 r2
          (createShareLink pid now1 r1 links).2).1] ∧
    (createShareLink pid now2 r2
        (createShareLink pid now1 r1 links).2).1.code = jsCode r2 ∧
    (createShareLink pid now2 r2
        (createShareLink pid now1 r1 links).2).1.expiresAt =
      now2 + 24 * 60 * 60 * 1000 := by
  have hs1 : ∀ q2 : String, List.countP (fun l => l.patientId == q2)
      (createShareLink pid now1 r1 links).2 ≤ 1 :=
    fun q2 => createShareLink_preserves_unique pid now1 r1 links h q2
  refine ⟨hs1 q,
    createShareLink_preserves_unique pid now2 r2 _ hs1 q, ?_, rfl, rfl⟩
  show List.filter (fun l => l.patientId == pid)
      (List.append
        (List.eraseP (fun l => l.patientId == pid)
          (createShareLink pid now1 r1 links).2)
        [newShareLink pid now2 r2]) = [newShareLink pid now2 r2]
  rw [List.append_eq, List.filter_append]
  have hf : List.filter (fun l => l.patientId == pid)
      (List.eraseP (fun l => l.patientId == pid)
        (createShareLink pid now1 r1 links).2) = [] := by
    rw [List.filter_eq_nil_iff]
    intro a ha
    simp [countP_le_one_mem_eraseP _ _ (hs1 pid) a ha]
  rw [hf]
  simp [newShareLink]

/-- Witness for `createShareLink_exclusive`: empty initial store, two
creations for patient "P1" with distinct clocks and random strings. -/
theorem createShareLink_exclusive_witness :
    List.countP (fun l => l.patientId == "P1")
        (createShareLink "P1" 0 ['0', '.', 'a', 'b', 'c', 'd', 'e', 'f']
          []).2 ≤ 1 ∧
    List.countP (fun l => l.patientId == "P1")
        (createShareLink "P1" 5 ['0', '.', 'x', 'y', 'z', '1', '2', '3']
          (createShareLink "P1" 0
            ['0', '.', 'a', 'b', 'c', 'd', 'e', 'f'] []).2).2 ≤ 1 ∧
    List.filter (fun l => l.patientId == "P1")
        (createShareLink "P1" 5 ['0', '.', 'x', 'y', 'z', '1', '2', '3']
          (createShareLink "P1" 0
            ['0', '.', 'a', 'b', 'c', 'd', 'e', 'f'] []).2).2 =
      [(createShareLink "P1" 5 ['0', '.', 'x', 'y', 'z', '1', '2', '3']
          (createShareLink "P1" 0
            ['0', '.', 'a', 'b', 'c', 'd', 'e', 'f'] []).2).1] ∧
    (createShareLink "P1" 5 ['0', '.', 'x', 'y', 'z', '1', '2', '3']
        (createShareLink "P1" 0
          ['0', '.', 'a', 'b', 'c', 'd', 'e', 'f'] []).2).1.code =
      jsCode ['0', '.', 'x', 'y', 'z', '1', '2', '3'] ∧
    (createShareLink "P1" 5 ['0', '.', 'x', 'y', 'z', '1', '2', '3']
        (createShareLink "P1" 0
          ['0', '.', 'a', 'b', 'c', 'd', 'e', 'f'] []).2).1.expiresAt =
      5 + 24 * 60 * 60 * 1000 :=
  createShareLink_exclusive "P1" 0 5
    ['0', '.', 'a', 'b', 'c', 'd', 'e', 'f']
    ['0', '.', 'x', 'y', 'z', '1', '2', '3'] [] "P1"
    (fun q2 => by simp)

/-! Claim C9: share-code shape and expiry. -/

/-- C9 counterexample: the random value 0.5 is a reachable result of
`Math.random()` and its base-36 string is "0.i" (digit 18), so the
generated code is the single character "I", not six characters. -/
theorem createShareLink_code_length_counterexample :
    isRandom36Repr ['0', '.', 'i'] ∧
    (createShareLink "P1" 0 ['0', '.', 'i'] []).1.code = ['I'] ∧
    ¬ (createShareLink "P1" 0 ['0', '.', 'i'] []).1.code.length = 6 :=
  ⟨Or.inr ⟨[18], by decide, by decide, by decide⟩, by decide, by decide⟩

/-- C9 (amended): for every possible base-36 string of the random
source, the generated code consists of uppercase alphanumeric characters
and has length `min 6 (length - 2)` — so at most six characters, and
exactly six whenever the random string has at least eight characters
(the typical case) — and the stored expiry is creation time plus 24
hours. -/
theorem createShareLink_code_shape (s : List Char)
    (hs : isRandom36Repr s) (pid : String) (now : Int)
    (links : List ShareLink) :
    (createShareLink pid now s links).1.code.length ≤ 6 ∧
    List.all (createShareLink pid now s links).1.code isUpperAlnum
      = true ∧
    (createShareLink pid now s links).1.code.length
      = min 6 (s.length - 2) ∧
    (createShareLink pid now s links).1.expiresAt
      = now + 24 * 60 * 60 * 1000 := by
  have hdigit : ∀ d : Nat, d < 36 →
      isUpperAlnum (Char.toUpper (digitChar36 d)) = true := by decide
  have hcode : (createShareLink pid now s links).1.code = jsCode s := rfl
  have hlen : (createShareLink pid now s links).1.code.length
      = min 6 (s.length - 2) := by
    rw [hcode]
    unfold jsCode
    rw [List.length_map, List.length_take, List.length_drop]
  refine ⟨?_, ?_, hlen, rfl⟩
  · rw [hlen]
    exact Nat.min_le_left 6 _
  · rw [hcode]
    unfold jsCode
    rw [List.all_eq_true]
    intro c hc
    rcases List.mem_map.mp hc with ⟨c0, hc0, rfl⟩
    have hc1 : c0 ∈ List.drop 2 s := List.mem_of_mem_take hc0
    rcases hs with h0 | ⟨ds, _, hlt, hseq⟩
    · rw [h0] at hc1
      simp at hc1
    · rw [hseq] at hc1
      have hdrop : List.drop 2 ('0' :: '.' :: List.map digitChar36 ds)
          = List.map digitChar36 ds := rfl
      rw [hdrop] at hc1
      rcases List.mem_map.mp hc1 with ⟨d, hd, rfl⟩
      exact hdigit d (hlt d hd)

/-- Witness for `createShareLink_code_shape`: the nine-character random
string "0.abcdefg" (digits 10..16) yields a six-character code. -/
theorem createShareLink_code_shape_witness :
    isRandom36Repr
      ('0' :: '.' :: List.map digitChar36 [10, 11, 12, 13, 14, 15, 16]) ∧
    ((createShareLink "P1" 0
        ('0' :: '.' :: List.map digitChar36 [10, 11, 12, 13, 14, 15, 16])
        []).1.code.length ≤ 6 ∧
     List.all (createShareLink "P1" 0
        ('0' :: '.' :: List.map digitChar36 [10, 11, 12, 13, 14, 15, 16])
        []).1.code isUpperAlnum = true ∧
     (createShareLink "P1" 0
        ('0' :: '.' :: List.map digitChar36 [10, 11, 12, 13, 14, 15, 16])
        []).1.code.length =
       min 6
         (('0' :: '.' ::
           List.map digitChar36 [10, 11, 12, 13, 14, 15, 16]).length - 2) ∧
     (createShareLink "P1" 0
        ('0' :: '.' :: List.map digitChar36 [10, 11, 12, 13, 14, 15, 16])
        []).1.expiresAt = 0 + 24 * 60 * 60 * 1000) :=
  ⟨Or.inr ⟨[10, 11, 12, 13, 14, 15, 16], by decide, by decide, rfl⟩,
   createShareLink_code_shape _
     (Or.inr ⟨[10, 11, 12, 13, 14, 15, 16], by decide, by decide, rfl⟩)
     "P1" 0 []⟩

/-! Claim C10: patient deletion is always ok and idempotent. -/

/-- C10: `deletePatient` answers ok for every id, even one with no
stored patient (it has no not-found branch), and — given the store
invariants that patient ids are unique and at most one share link exists
per patient — running it a second time on the same id leaves all four
stores unchanged. -/
theorem deletePatient_ok_and_idempotent (s : Stores) (id : String)
    (hp : List.countP (fun p => p.id == id) s.patients ≤ 1)
    (hs : List.countP (fun l => l.patientId == id) s.shareLinks ≤ 1) :
    (deletePatient id s).1 = AssignResult.ok ∧
    (deletePatient id (deletePatient id s).2).1 = AssignResult.ok ∧
    (deletePatient id (deletePatient id s).2).2 = (deletePatient id s).2
    := by
  refine ⟨rfl, rfl, ?_⟩
  simp only [deletePatient]
  rw [eraseP_idem_of_countP_le_one _ _ hp,
    eraseP_idem_of_countP_le_one _ _ hs, filter_idem, filter_idem]

/-- Witness for `deletePatient_ok_and_idempotent`: a store holding
records only for patient "A", deleting the absent id "Z". -/
theorem deletePatient_witness :
    (deletePatient "Z"
        ⟨[⟨"A", none, none, none, none⟩],
         [[("patientId", JsVal.str "A")]], [⟨"A", "n", 0⟩],
         [⟨"A", ['X'], "u", 0⟩]⟩).1 = AssignResult.ok ∧
    (deletePatient "Z" (deletePatient "Z"
        ⟨[⟨"A", none, none, none, none⟩],
         [[("patientId", JsVal.str "A")]], [⟨"A", "n", 0⟩],
         [⟨"A", ['X'], "u", 0⟩]⟩).2).1 = AssignResult.ok ∧
    (deletePatient "Z" (deletePatient "Z"
        ⟨[⟨"A", none, none, none, none⟩],
         [[("patientId", JsVal.str "A")]], [⟨"A", "n", 0⟩],
         [⟨"A", ['X'], "u", 0⟩]⟩).2).2 =
      (deletePatient "Z"
        ⟨[⟨"A", none, none, none, none⟩],
         [[("patientId", JsVal.str "A")]], [⟨"A", "n", 0⟩],
         [⟨"A", ['X'], "u", 0⟩]⟩).2 :=
  deletePatient_ok_and_idempotent
    ⟨[⟨"A", none, none, none, none⟩],
     [[("patientId", JsVal.str "A")]], [⟨"A", "n", 0⟩],
     [⟨"A", ['X'], "u", 0⟩]⟩ "Z" (by decide) (by decide)

end CareCompass
